import Mathlib

/-!
# Verification of the pokeGPT battle-statistic and damage-calculation engine

This file shallowly embeds the JavaScript battle engine of the pokeGPT
repository (`src/play_pokemon.js` and the unnamed source parts) in Lean 4 and
settles the frozen claims about it.

Conventions of the embedding:
* JavaScript numbers are modelled as rationals (`ℚ`); `Math.floor` is `Int.floor`.
  All constants appearing in the sources (`0.01`, `0.25`, `0.5`, ...) are exact
  dyadic/decimal rationals, and every claim is evaluated at inputs where the
  IEEE-double computation and the rational computation agree.
* A JavaScript function that can `throw` is modelled with `Except`;
  `console.warn` is modelled as a `Bool` flag returned beside the value.
* Property keys of JavaScript objects built from object instances are modelled
  by `Option` keys: computed keys `[Type.X]` stringify the instance *at table
  construction time*, and an instance that has not yet been assigned to its
  static property stringifies to the string `"undefined"`, modelled as `none`.
  A defined instance stringifies to a string containing its unique id, so two
  defined keys are equal exactly when the instances are equal (`some t`).
-/

set_option linter.unusedVariables false

/-! ## StatCalculator (`calcHP`, src/play_pokemon.js lines 831-833)

`function calcHP(base, iv, ev, lv) {
   return Math.floor(0.01 * (2 * base + iv + Math.floor(0.25 * ev)) * lv) + lv + 10;
 }` -/

def calcHP (base iv ev lv : ℚ) : ℚ :=
  (⌊(0.01 : ℚ) * (2 * base + iv + (⌊(0.25 : ℚ) * ev⌋ : ℤ)) * lv⌋ : ℤ) + lv + 10

/-! ## DamageFormula

Generation III damage formula, src/play_pokemon.js lines 1128-1139
(the fully written-out draft cited by the claims; the file later re-declares
an empty stub of the same name).  The source defines one closure
`critMod = (xs, cmp = v => v < 1) => !ignoreCrit && critical > 1 && cmp(xs) ? 1 : xs`
and applies it to `as` with the default comparator and to `ds` with `v => v > 1`;
the two applications are transcribed as the two `let`s below. -/

def calcGenIIIDamage (level a d as ds power screen targets weather ff stockpile
    critical doubleDmg charge hh stab typeEff random : ℚ)
    (isBurned ignoreCrit ignoreRandom : Bool) : ℚ :=
  let critModAs : ℚ := if ignoreCrit = false ∧ 1 < critical ∧ as < 1 then 1 else as
  let critModDs : ℚ := if ignoreCrit = false ∧ 1 < critical ∧ 1 < ds then 1 else ds
  let burn : ℚ := if isBurned then 0.5 else 1
  let initDamage : ℚ :=
    (((2 * level / 5) + 2) * power * (a * critModAs) / (d * critModDs) / 50) *
      burn * (if ignoreCrit = false ∧ 1 < critical then 1 else screen) *
      targets * weather * ff + 2
  initDamage * stockpile * (if ignoreCrit then 1 else critical) * doubleDmg *
    charge * hh * stab * typeEff * (if ignoreRandom then 1 else random)

/-- Generation IV damage formula, src/play_pokemon.js lines 1183-1204.
The source defines the same `critMod` closure as the gen III formula but never
applies it: the damage expression uses `a / d` directly, and the `as`, `ds`,
`ignoreCrit` and `ignoreRandom` parameters do not occur in it.  The
`isSniper`/`isAdaptability` reassignments form an `if`/`else if` chain whose
second guard is only reached when the first is false. -/
def calcGenIVDamage (level a d as ds power burn screen targets weather ff
    critical item first stab type1 type2 srf eb tl berry random : ℚ)
    (ignoreCrit ignoreRandom isSniper isAdaptability : Bool) : ℚ :=
  let critical2 : ℚ := if isSniper = true ∧ 1 < critical then 3 else critical
  let stab2 : ℚ :=
    if ¬(isSniper = true ∧ 1 < critical) ∧ (isAdaptability = true ∧ 1 < stab)
    then 2 else stab
  let typeEffectiveness : ℚ := type1 * type2
  (((((2 * level / 5) + 2) * power * a / d) / 50) * burn * screen * targets *
      weather * ff + 2) *
    critical2 * item * first * random * stab2 * typeEffectiveness * srf * eb *
    tl * berry

/-- Generation III damage formula draft of src/unnamed/part_002 lines 158-168.
Its final line multiplies by `Math.floor(Math.random() * (100 - 85 + 1) + 85) / 100`;
the ambient `Math.random()` draw (a number in `[0, 1)`) is made explicit as the
extra argument `mathRandom`, which is *not* one of the function's parameters in
the source. -/
def calcGenIIIDamageP2 (level a d power burn screen targets weather ff stockpile
    critical doubleDmg charge hh stab typeEff : ℚ) (spitUp : Bool)
    (mathRandom : ℚ) : ℚ :=
  let damage : ℚ :=
    (((2 * level / 5) + 2) * power * a / d / 50) * burn * screen * targets *
      weather * ff + 2
  if spitUp then damage * stockpile * hh * stab * typeEff
  else
    (damage * critical * doubleDmg * charge * hh * stab * typeEff) *
      (⌊mathRandom * (100 - 85 + 1) + 85⌋ : ℤ) / 100

/-! ## Helper facts about the damage formulas -/

/-- The gen III formula of src/play_pokemon.js does satisfy the critical-hit
property: on a critical hit the output is the non-critical output with the
attack-stage, defense-stage and screen multipliers forced to 1, times the
critical multiplier.  (Shared helper; the corresponding claim fails on the
gen IV formula.) -/
theorem calcGenIIIDamage_crit (level a d as ds power screen targets weather ff
    stockpile critical doubleDmg charge hh stab typeEff random : ℚ)
    (isBurned ignoreRandom : Bool)
    (hc : 1 < critical) (has : as < 1) (hds : 1 < ds) :
    calcGenIIIDamage level a d as ds power screen targets weather ff stockpile
      critical doubleDmg charge hh stab typeEff random isBurned false
      ignoreRandom =
    calcGenIIIDamage level a d 1 1 power 1 targets weather ff stockpile
      1 doubleDmg charge hh stab typeEff random isBurned false ignoreRandom *
      critical := by
  unfold calcGenIIIDamage
  simp only [ite_self, Bool.false_eq_true, if_false]
  rw [if_pos (show True ∧ 1 < critical ∧ as < 1 from ⟨trivial, hc, has⟩),
    if_pos (show True ∧ 1 < critical ∧ 1 < ds from ⟨trivial, hc, hds⟩),
    if_pos (show True ∧ 1 < critical from ⟨trivial, hc⟩)]
  ring

/-- C1: for the generation-III and generation-IV damage functions, a critical
hit is claimed to equal the non-critical computation with the attack-stage and
defense-stage multipliers and the screen multiplier forced to 1, times the
critical multiplier.  The gen IV function violates this: its `critMod` helper
is never applied and the screen multiplier is not bypassed on a critical hit.
At level 10, a = d = 1, power 50, attack-stage ½, defense-stage 2, screen ½ and
critical 2 the code computes 10, while the claimed identity demands
8 × 2 = 16. -/
theorem c1_genIV_crit_violation :
    calcGenIVDamage 10 1 1 (1/2) 2 50 1 (1/2) 1 1 1 2 1 1 1 1 1 1 1 1 1 1
      false false false false ≠
    calcGenIVDamage 10 1 1 1 1 50 1 1 1 1 1 1 1 1 1 1 1 1 1 1 1 1
      false false false false * 2 := by
  unfold calcGenIVDamage
  norm_num

/-- C2 counterexample: the HP stat at base 100, IV 31, EV 252, level 100 is not
the 330 stated by the claim. -/
theorem c2_hp_base100_ne_330 : calcHP 100 31 252 100 ≠ 330 := by
  unfold calcHP
  norm_num

/-- C2 (amended): the HP formula is
`floor(0.01 * (2*base + iv + floor(0.25*ev)) * level) + level + 10`
— over natural inputs this is `((2*base + iv + ev/4) * level) / 100 + level + 10`
with truncating integer division — and at base 100, IV 31, EV 252, level 100 it
yields 404 (not 330). -/
theorem c2_hp_formula_and_value :
    (∀ base iv ev lv : ℕ,
      calcHP base iv ev lv =
        (((2 * (base : ℤ) + iv + (ev : ℤ) / 4) * lv) / 100 + lv + 10 : ℤ)) ∧
    calcHP 100 31 252 100 = 404 := by
  constructor
  · intro base iv ev lv
    unfold calcHP
    have h4 : ⌊(0.25 : ℚ) * (ev : ℚ)⌋ = (ev : ℤ) / 4 := by
      rw [show (0.25 : ℚ) * (ev : ℚ) = (((ev : ℤ) : ℚ)) / ((4 : ℕ) : ℚ) by
        push_cast; ring]
      exact Rat.floor_intCast_div_natCast ev 4
    have h100 : ⌊(0.01 : ℚ) * (2 * (base : ℚ) + (iv : ℚ) + (((ev : ℤ) / 4 : ℤ) : ℚ)) *
        (lv : ℚ)⌋ = ((2 * (base : ℤ) + iv + (ev : ℤ) / 4) * lv) / 100 := by
      rw [show (0.01 : ℚ) * (2 * (base : ℚ) + (iv : ℚ) + (((ev : ℤ) / 4 : ℤ) : ℚ)) *
          (lv : ℚ) = ((((2 * (base : ℤ) + iv + (ev : ℤ) / 4) * lv : ℤ)) : ℚ) /
          ((100 : ℕ) : ℚ) by push_cast; ring]
      exact Rat.floor_intCast_div_natCast _ 100
    rw [h4, h100]
    push_cast
    ring
  · unfold calcHP
    norm_num

/-- C9 counterexample: the gen III damage draft of src/unnamed/part_002 returns
different damage for two calls with identical argument values, because its
random factor is drawn internally from `Math.random()` (here: ambient draws 0
and ½ give 8 × 85/100 = 34/5 versus 8 × 93/100 = 186/25). -/
theorem c9_p2_not_deterministic :
    calcGenIIIDamageP2 10 1 1 50 1 1 1 1 1 1 1 1 1 1 1 1 false 0 ≠
    calcGenIIIDamageP2 10 1 1 50 1 1 1 1 1 1 1 1 1 1 1 1 false (1/2) := by
  unfold calcGenIIIDamageP2
  norm_num

/-- C9 (amended): the damage formulas of src/play_pokemon.js are pure functions
of their explicit arguments; in particular the gen III variant takes the random
factor as an explicit parameter and, when the caller requests a deterministic
result (`ignoreRandom = true`), its output is independent of the random
argument, so a caller that pins (or ignores) the random argument always obtains
a reproducible result.  The part_002 draft is excluded: it draws its random
factor internally (see the counterexample). -/
theorem c9_play_pokemon_random_isolated (level a d as ds power screen targets
    weather ff stockpile critical doubleDmg charge hh stab typeEff r₁ r₂ : ℚ)
    (isBurned ignoreCrit : Bool) :
    calcGenIIIDamage level a d as ds power screen targets weather ff stockpile
      critical doubleDmg charge hh stab typeEff r₁ isBurned ignoreCrit true =
    calcGenIIIDamage level a d as ds power screen targets weather ff stockpile
      critical doubleDmg charge hh stab typeEff r₂ isBurned ignoreCrit true := by
  unfold calcGenIIIDamage
  simp

/-! ## RulesetSelector (`Gen`, src/play_pokemon.js lines 40-188,
src/unnamed/part_003 lines 72-220)

`Gen.match(genRange)` matches this generation's ordinal against a range
expression, in order: `DIGITS-DIGITS` or `ROMAN-ROMAN`, then `DIGITS+` or
`ROMAN+`, then bare `DIGITS` or bare `ROMAN`, else it throws a TypeError.
Strings are modelled as `List Char`. -/

def isDigitCh (c : Char) : Bool := c.isDigit

/-- The JavaScript `\s` whitespace class (restricted to its ASCII members,
which are the only ones relevant here). -/
def isWsCh (c : Char) : Bool :=
  c = ' ' || c = '\t' || c = '\n' || c = '\r' || c = '\x0b' || c = '\x0c'

/-- `romanNumeralMap[c]` for the single characters the conversion loop reads
(the loop `romanNumeralMap[str[i]]` only ever indexes one character, so the
two-character keys `IV`/`IX`/`XL`/`XC` of the source map are dead). -/
def romanCharVal (c : Char) : ℕ :=
  if c = 'I' then 1 else if c = 'V' then 5 else if c = 'X' then 10
  else if c = 'L' then 50 else if c = 'C' then 100
  else if c = 'D' then 500 else if c = 'M' then 1000 else 0

/-- The subtractive-sum loop of `romanToNumber`: a character counts negative
when the following character has a larger value; the last character (whose
successor lookup is `undefined`, and `x < undefined` is false) counts
positive. -/
def romanVal : List Char → ℤ
  | [] => 0
  | c :: rest =>
    (match rest.head? with
     | some c2 =>
       if romanCharVal c < romanCharVal c2 then -(romanCharVal c : ℤ)
       else (romanCharVal c : ℤ)
     | none => (romanCharVal c : ℤ)) + romanVal rest

/-- The language of `(CM|CD|D?C{0,3})`, in the regex's preference order. -/
def hundredsAlts : List (List Char) :=
  ["CM", "CD", "", "C", "CC", "CCC", "D", "DC", "DCC", "DCCC"].map String.data

/-- The language of `(XC|XL|L?X{0,3})`, in the regex's preference order. -/
def tensAlts : List (List Char) :=
  ["XC", "XL", "", "X", "XX", "XXX", "L", "LX", "LXX", "LXXX"].map String.data

/-- The language of `(IX|IV|V?I{0,3})`, in the regex's preference order. -/
def onesAlts : List (List Char) :=
  ["IX", "IV", "", "I", "II", "III", "V", "VI", "VII", "VIII"].map String.data

/-- `isValidRomanNumeral`: full anchored match of
`^M{0,10}(CM|CD|D?C{0,3})(XC|XL|L?X{0,3})(IX|IV|V?I{0,3})$`.  Since `M` occurs
in no later component, `M{0,10}` must consume exactly the leading run of `M`s;
the rest matches iff it decomposes into one alternative of each component
(note the empty string is in every component, so `""` is a valid numeral). -/
def isValidRoman (l : List Char) : Bool :=
  let mCount := (l.takeWhile (· = 'M')).length
  let rest := l.drop mCount
  decide (mCount ≤ 10) &&
    hundredsAlts.any (fun h =>
      rest.take h.length == h &&
        tensAlts.any (fun t =>
          let r2 := rest.drop h.length
          r2.take t.length == t &&
            onesAlts.any (fun o => r2.drop (t.length) == o)))

/-- Decimal value of a digit string (the `Number(str)` coercion applied to the
`\d+` captures of `Gen.match`; the full JavaScript `Number` coercion accepts
more shapes, but only all-digit captures reach this fallback inside
`Gen.match`). -/
def digitsVal (l : List Char) : ℤ :=
  l.foldl (fun acc c => 10 * acc + ((c.toNat : ℤ) - 48)) 0

/-- `romanToNumber(str)`: a valid Roman numeral converts by the subtractive
sum; otherwise `Number(str)` is used when it is not `NaN`; otherwise the
function warns and returns `NaN`, modelled as `none`. -/
def romanToNumber (l : List Char) : Option ℤ :=
  if isValidRoman l then some (romanVal l)
  else if !l.isEmpty && l.all isDigitCh then some (digitsVal l)
  else none

/-- The language of the source's `_rnrStr`
`(C|XC|L|XL|X{0,3}(IX|IV|V?I{0,3})|IX|IV|V|I)`, enumerated in the engine's
backtracking preference order (alternatives left to right; the bounded
repetitions `X{0,3}`, `V?` and `I{0,3}` greedy, i.e. longest first).  Note the
alternative `X{0,3}(IX|IV|V?I{0,3})` matches the empty string. -/
def rnrAlts : List (List Char) :=
  ["C", "XC", "L", "XL",
   "XXXIX", "XXXIV", "XXXVIII", "XXXVII", "XXXVI", "XXXV",
   "XXXIII", "XXXII", "XXXI", "XXX",
   "XXIX", "XXIV", "XXVIII", "XXVII", "XXVI", "XXV",
   "XXIII", "XXII", "XXI", "XX",
   "XIX", "XIV", "XVIII", "XVII", "XVI", "XV",
   "XIII", "XII", "XI", "X",
   "IX", "IV", "VIII", "VII", "VI", "V", "III", "II", "I", "",
   "IX", "IV", "V", "I"].map String.data

/-- Match of `^(\d+)\s*-\s*(\d+)$`, returning the two captures.  The three
character classes are disjoint, so the decomposition is unique. -/
def digitRange (l : List Char) : Option (List Char × List Char) :=
  let d1 := l.takeWhile isDigitCh
  if d1.isEmpty then none
  else
    match (l.drop d1.length).dropWhile isWsCh with
    | '-' :: tail =>
      let d2 := tail.dropWhile isWsCh
      if !d2.isEmpty && d2.all isDigitCh then some (d1, d2) else none
    | _ => none

/-- Whether `rest` matches `\s*-\s*` followed by one `_rnrStr` numeral up to
the anchor. -/
def sepThenRnr (rest : List Char) : Bool :=
  match rest.dropWhile isWsCh with
  | '-' :: tail =>
    let tail2 := tail.dropWhile isWsCh
    rnrAlts.any (fun r2 => tail2 == r2)
  | _ => false

/-- Match of the source's Roman-range regex
`^((C|…|I))\s*-\s*((C|…|I))$`, returning capture group 1 (the first numeral,
chosen in the engine's preference order).  The destructuring in `Gen.match`
reads groups 1 and 2, and group 2 is the *nested duplicate* of group 1 —
`_rnrStr` carries its own surrounding parentheses — so the second numeral's
capture (group 4) is never read. -/
def romanRange (l : List Char) : Option (List Char) :=
  rnrAlts.find? (fun r1 => l.take r1.length == r1 && sepThenRnr (l.drop r1.length))

/-- Match of `^(\d+)\+$`, returning the capture. -/
def digitPlus (l : List Char) : Option (List Char) :=
  let d := l.takeWhile isDigitCh
  if !d.isEmpty && l == d ++ ['+'] then some d else none

/-- Match of `^((C|…|I))\+$`, returning capture group 1. -/
def romanPlus (l : List Char) : Option (List Char) :=
  rnrAlts.find? (fun r1 => l == r1 ++ ['+'])

/-- Match of `^(\d+)$`. -/
def bareDigit (l : List Char) : Option (List Char) :=
  if !l.isEmpty && l.all isDigitCh then some l else none

/-- Match of `^((C|…|I))$`. -/
def bareRoman (l : List Char) : Option (List Char) :=
  rnrAlts.find? (fun r => l == r)

/-- `Gen.match(genRange)` for a generation whose own ordinal (the
`romanToNumber` of its name) is `thisGen`.  A `NaN` from `romanToNumber`
(modelled `none`) makes every comparison false.  In the ranged branch both
endpoints are `romanToNumber` of the *first* captured numeral, because the
destructured `maxGenStr` is nested capture group 2, which spans the same text
as group 1 (see `romanRange`); the digit-range regex has no nested groups, so
its two captures are the two numerals. -/
def genMatchN (thisGen : ℤ) (l : List Char) : Except Unit Bool :=
  match digitRange l with
  | some (d1, d2) =>
    match romanToNumber d1, romanToNumber d2 with
    | some g1, some g2 =>
      .ok (decide (min g1 g2 ≤ thisGen ∧ thisGen ≤ max g1 g2))
    | _, _ => .ok false
  | none =>
  match romanRange l with
  | some r1 =>
    match romanToNumber r1 with
    | some g1 => .ok (decide (min g1 g1 ≤ thisGen ∧ thisGen ≤ max g1 g1))
    | none => .ok false
  | none =>
  match digitPlus l with
  | some d =>
    match romanToNumber d with
    | some v => .ok (decide (v ≤ thisGen))
    | none => .ok false
  | none =>
  match romanPlus l with
  | some r =>
    match romanToNumber r with
    | some v => .ok (decide (v ≤ thisGen))
    | none => .ok false
  | none =>
  match bareDigit l with
  | some d =>
    match romanToNumber d with
    | some v => .ok (decide (thisGen = v))
    | none => .ok false
  | none =>
  match bareRoman l with
  | some r =>
    match romanToNumber r with
    | some v => .ok (decide (thisGen = v))
    | none => .ok false
  | none => .error ()

/-- The nine static `Gen` instances. -/
inductive GenT
  | I | II | III | IV | V | VI | VII | VIII | IX
deriving DecidableEq

def GenT.name : GenT → List Char
  | .I => "I".data
  | .II => "II".data
  | .III => "III".data
  | .IV => "IV".data
  | .V => "V".data
  | .VI => "VI".data
  | .VII => "VII".data
  | .VIII => "VIII".data
  | .IX => "IX".data

def GenT.ordinal : GenT → ℤ
  | .I => 1
  | .II => 2
  | .III => 3
  | .IV => 4
  | .V => 5
  | .VI => 6
  | .VII => 7
  | .VIII => 8
  | .IX => 9

/-- The name of each static generation converts to its ordinal, so the
`getD 0` in `genMatch` below never fires. -/
theorem romanToNumber_genName : ∀ g : GenT, romanToNumber g.name = some g.ordinal := by
  intro g
  cases g <;> rfl

/-- `Gen.match` of a static generation instance: `thisGen` is
`romanToNumber(this.getName())`. -/
def genMatch (g : GenT) (genRange : String) : Except Unit Bool :=
  genMatchN ((romanToNumber g.name).getD 0) genRange.data

/-- C6: `Gen.match` is claimed to give `min(a,b) ≤ g ≤ max(a,b)` on ranged
expressions and to fail loudly on anything outside the four grammars,
including ordinal 0.  The code diverges: `Gen.III.match('II-V')` returns
`false` (the destructured upper endpoint is nested capture group 2, a
duplicate of the first numeral, so the range collapses to `[2,2]`);
`Gen.I.match('+')` silently returns `true` (the Roman-numeral alternation
matches the empty string, which converts to 0); and `Gen.I.match('0')`
silently returns `false` instead of failing. -/
theorem c6_match_divergence :
    genMatch .III "II-V" = .ok false ∧
    genMatch .I "+" = .ok true ∧
    genMatch .I "0" = .ok false :=
  ⟨rfl, rfl, rfl⟩

/-! ## TypeChart (`Type`, src/unnamed/part_003 lines 322-497,
src/play_pokemon.js lines 228-367)

The 20 static `Type` instances are created in source order; each instance
builds its per-instance effectiveness objects *inside its own constructor*.
A computed property key `[Type.X]` stringifies `Type.X` at that moment: a type
already assigned to its static property stringifies to a unique
`"#id: Type.X"` string (modelled `some X`), while a not-yet-created type is
`undefined` and stringifies to the single string `"undefined"` (modelled
`none`).  In particular, a type's *own* key inside its own tables is always
`"undefined"`, because `Type.X = new Type()` assigns the property only after
the constructor returns. -/

inductive TypeT
  | typeless | bug | dark | dragon | electric | fairy | fighting | fire
  | flying | ghost | grass | ground | ice | normal | poison | psychic
  | rock | steel | water | deltaFlying
deriving DecidableEq

open TypeT

/-- Creation order of the static `Type` instances (source order of the
`Type.X = new Type()` lines). -/
def creationIdx : TypeT → ℕ
  | typeless => 0 | bug => 1 | dark => 2 | dragon => 3 | electric => 4
  | fairy => 5 | fighting => 6 | fire => 7 | flying => 8 | ghost => 9
  | grass => 10 | ground => 11 | ice => 12 | normal => 13 | poison => 14
  | psychic => 15 | rock => 16 | steel => 17 | water => 18 | deltaFlying => 19

/-- The property key produced by the computed key `[Type.t]` inside the
constructor of the `n`-th created instance: the types created earlier have
been assigned and stringify to their unique id strings (`some t`); all later
ones (including the owner itself) are `undefined` (`none`). -/
def keyAt (n : ℕ) (t : TypeT) : Option TypeT :=
  if creationIdx t < n then some t else none

/-- Property lookup on a JavaScript object literal: of several entries written
with the same key, the last wins. -/
def jsGet {κ α : Type} [DecidableEq κ] (tbl : List (κ × α)) (k : κ) : Option α :=
  (tbl.reverse.find? (fun p => p.1 = k)).map Prod.snd

/-- An inner (attacker-keyed) row as built inside the constructor of type
`owner`. -/
def innerAt (owner : TypeT) (row : List (TypeT × ℚ)) : List (Option TypeT × ℚ) :=
  row.map (fun p => (keyAt (creationIdx owner) p.1, p.2))

/-- A defender-indexed effectiveness table as built inside the constructor of
type `owner`. -/
def tableAt (owner : TypeT) (src : List (TypeT × List (TypeT × ℚ))) :
    List (Option TypeT × List (Option TypeT × ℚ)) :=
  src.map (fun p => (keyAt (creationIdx owner) p.1, innerAt owner p.2))

/-- `_genIEff` (src/unnamed/part_003 lines 340-356), as written: defender row
first, attacker entries inside. -/
def genIEffSrc : List (TypeT × List (TypeT × ℚ)) :=
  [(normal, [(fighting, 2), (ghost, 0)]),
   (fire, [(fire, 0.5), (water, 2), (grass, 0.5), (ground, 2), (bug, 0.5), (rock, 2)]),
   (water, [(fire, 0.5), (water, 0.5), (electric, 2), (grass, 2), (ice, 0.5)]),
   (electric, [(electric, 0.5), (ground, 2), (flying, 0.5)]),
   (grass, [(fire, 2), (water, 0.5), (electric, 0.5), (grass, 0.5), (ice, 2),
     (poison, 2), (ground, 0.5), (flying, 2), (bug, 2)]),
   (ice, [(fire, 2), (ice, 0.5), (fighting, 2), (rock, 2)]),
   (fighting, [(flying, 2), (psychic, 2), (bug, 0.5), (rock, 0.5)]),
   (poison, [(grass, 0.5), (fighting, 0.5), (poison, 0.5), (ground, 2),
     (psychic, 2), (bug, 2)]),
   (ground, [(water, 2), (electric, 0), (grass, 2), (ice, 2), (poison, 0.5),
     (rock, 0.5)]),
   (flying, [(electric, 2), (grass, 0.5), (ice, 2), (fighting, 0.5),
     (ground, 0), (bug, 0.5), (rock, 2)]),
   (psychic, [(fighting, 0.5), (psychic, 0.5), (bug, 2), (ghost, 0)]),
   (bug, [(fire, 2), (grass, 0.5), (fighting, 0.5), (poison, 2), (ground, 0.5),
     (flying, 2), (rock, 2)]),
   (rock, [(normal, 0.5), (fire, 0.5), (water, 0.5), (grass, 2), (fighting, 2),
     (poison, 0.5), (ground, 2), (flying, 0.5)]),
   (ghost, [(normal, 0), (fighting, 0), (poison, 0.5), (bug, 0.5), (ghost, 2)]),
   (dragon, [(fire, 0.5), (water, 0.5), (electric, 0.5), (grass, 0.5), (ice, 2),
     (dragon, 2)])]

/-- `_genIItoVEff` (src/unnamed/part_003 lines 363-382). -/
def genIItoVEffSrc : List (TypeT × List (TypeT × ℚ)) :=
  [(bug, [(fighting, 0.5), (flying, 2), (ground, 0.5), (rock, 2), (fire, 2),
     (grass, 0.5)]),
   (dark, [(fighting, 2), (psychic, 0), (bug, 2), (ghost, 0.5), (dark, 0.5)]),
   (dragon, [(fire, 0.5), (water, 0.5), (electric, 0.5), (grass, 0.5), (ice, 2),
     (dragon, 2)]),
   (electric, [(flying, 0.5), (ground, 2), (electric, 0.5), (dragon, 0.5),
     (steel, 0.5)]),
   (fighting, [(flying, 2), (rock, 0.5), (bug, 0.5), (psychic, 2), (dark, 0.5)]),
   (fire, [(rock, 2), (bug, 0.5), (steel, 0.5), (fire, 0.5), (water, 2),
     (grass, 0.5), (ice, 0.5), (dragon, 0.5), (ground, 2)]),
   (flying, [(fighting, 0.5), (rock, 2), (bug, 0.5), (grass, 0.5), (electric, 2),
     (ice, 2), (ground, 0)]),
   (deltaFlying, [(fighting, 0.5), (rock, 1), (bug, 0.5), (grass, 0.5),
     (electric, 1), (ice, 1), (ground, 0)]),
   (ghost, [(normal, 0), (fighting, 0), (poison, 0.5), (bug, 0.5), (ghost, 2),
     (dark, 2)]),
   (grass, [(flying, 2), (poison, 2), (ground, 0.5), (bug, 2), (fire, 2),
     (grass, 0.5), (water, 0.5), (electric, 0.5), (ice, 2)]),
   (ground, [(poison, 0.5), (rock, 2), (water, 2), (grass, 0.5), (electric, 0),
     (ice, 2)]),
   (ice, [(steel, 2), (fire, 2), (ice, 0.5), (rock, 2), (fighting, 2)]),
   (normal, [(fighting, 2), (ghost, 0)]),
   (poison, [(fighting, 0.5), (poison, 0.5), (ground, 2), (bug, 0.5),
     (grass, 0.5), (psychic, 2)]),
   (psychic, [(fighting, 0.5), (psychic, 0.5), (dark, 2), (ghost, 2), (bug, 2)]),
   (rock, [(normal, 0.5), (fighting, 2), (flying, 0.5), (poison, 0.5),
     (ground, 2), (steel, 2), (fire, 0.5), (water, 2), (grass, 2)]),
   (steel, [(normal, 0.5), (fighting, 2), (flying, 0.5), (rock, 0.5), (bug, 0.5),
     (ghost, 0.5), (steel, 0.5), (fire, 2), (grass, 0.5), (ice, 0.5),
     (poison, 0), (ground, 2), (psychic, 0.5), (dragon, 0.5), (dark, 0.5)]),
   (water, [(fire, 0.5), (water, 0.5), (grass, 2), (electric, 2), (ice, 0.5),
     (steel, 0.5)])]

/-- `_genVIEff` (src/unnamed/part_003 lines 389-409); textually identical to
the single `_effectiveness` table of src/play_pokemon.js lines 246-266. -/
def genVIEffSrc : List (TypeT × List (TypeT × ℚ)) :=
  [(bug, [(fighting, 0.5), (flying, 2), (ground, 0.5), (rock, 2), (fire, 2),
     (grass, 0.5)]),
   (dark, [(fighting, 2), (psychic, 0), (bug, 2), (ghost, 0.5), (dark, 0.5),
     (fairy, 2)]),
   (dragon, [(fire, 0.5), (water, 0.5), (electric, 0.5), (grass, 0.5), (ice, 2),
     (dragon, 2), (fairy, 2)]),
   (electric, [(flying, 0.5), (ground, 2), (electric, 0.5), (dragon, 0.5),
     (steel, 0.5)]),
   (fairy, [(fighting, 0.5), (poison, 2), (bug, 0.5), (dragon, 0), (dark, 0.5),
     (steel, 2)]),
   (fighting, [(flying, 2), (rock, 0.5), (bug, 0.5), (psychic, 2), (dark, 0.5),
     (fairy, 2)]),
   (fire, [(rock, 2), (bug, 0.5), (steel, 0.5), (fire, 0.5), (water, 2),
     (grass, 0.5), (ice, 0.5), (dragon, 0.5), (ground, 2), (fairy, 0.5)]),
   (flying, [(fighting, 0.5), (rock, 2), (bug, 0.5), (grass, 0.5), (electric, 2),
     (ice, 2), (ground, 0)]),
   (deltaFlying, [(fighting, 0.5), (rock, 1), (bug, 0.5), (grass, 0.5),
     (electric, 1), (ice, 1), (ground, 0)]),
   (ghost, [(normal, 0), (fighting, 0), (poison, 0.5), (bug, 0.5), (ghost, 2),
     (dark, 2)]),
   (grass, [(flying, 2), (poison, 2), (ground, 0.5), (bug, 2), (fire, 2),
     (grass, 0.5), (water, 0.5), (electric, 0.5), (ice, 2)]),
   (ground, [(poison, 0.5), (rock, 2), (water, 2), (grass, 0.5), (electric, 0),
     (ice, 2)]),
   (ice, [(steel, 2), (fire, 2), (ice, 0.5), (rock, 2), (fighting, 2)]),
   (normal, [(fighting, 2), (ghost, 0)]),
   (poison, [(fighting, 0.5), (poison, 0.5), (ground, 2), (bug, 0.5),
     (grass, 0.5), (fairy, 0.5), (psychic, 2)]),
   (psychic, [(fighting, 0.5), (psychic, 0.5), (dark, 2), (ghost, 2), (bug, 2)]),
   (rock, [(normal, 0.5), (fighting, 2), (flying, 0.5), (poison, 0.5),
     (ground, 2), (steel, 2), (fire, 0.5), (water, 2), (grass, 2)]),
   (steel, [(normal, 0.5), (fighting, 2), (flying, 0.5), (rock, 0.5), (bug, 0.5),
     (steel, 0.5), (fire, 2), (grass, 0.5), (ice, 0.5), (fairy, 0.5),
     (poison, 0), (ground, 2), (psychic, 0.5), (dragon, 0.5)]),
   (water, [(fire, 0.5), (water, 0.5), (grass, 2), (electric, 2), (ice, 0.5),
     (steel, 0.5)])]

/-- One defender's contribution inside `Type.attack`:
`if (eff.hasOwnProperty(def) && eff[def].hasOwnProperty(this)) mod *= eff[def][this]`.
Both lookups use the call-time string of a fully constructed instance
(`some _`). -/
def attackMod (eff : List (Option TypeT × List (Option TypeT × ℚ)))
    (this defender : TypeT) : ℚ :=
  match jsGet eff (some defender) with
  | some row =>
    match jsGet row (some this) with
    | some v => v
    | none => 1
  | none => 1

/-- `(genMatch g r).getD false` — inside `Type.attack` the two `gen.match`
calls are on 'I' and 'II-V', which never throw. -/
def genMatchB (g : GenT) (r : String) : Bool := (genMatch g r).toOption.getD false

/-- `Type.attack(gen, fDefenderType, sDefenderType)` of src/unnamed/part_003
lines 420-448 (on arguments that pass the `instanceof` guards): picks the era
table by `gen.match('I')` / `gen.match('II-V')` and multiplies the two
defenders' contributions. -/
def typeAttackP3 (g : GenT) (this fDefenderType sDefenderType : TypeT) : ℚ :=
  let eff :=
    if genMatchB g "I" then tableAt this genIEffSrc
    else if genMatchB g "II-V" then tableAt this genIItoVEffSrc
    else tableAt this genVIEffSrc
  attackMod eff this fDefenderType * attackMod eff this sDefenderType

/-- `Type.attack(fDefenderType, sDefenderType)` of src/play_pokemon.js lines
288-302: same lookup against the single `_effectiveness` table. -/
def typeAttackPP (this fDefenderType sDefenderType : TypeT) : ℚ :=
  attackMod (tableAt this genVIEffSrc) this fDefenderType *
    attackMod (tableAt this genVIEffSrc) this sDefenderType

/-- In a row built inside `owner`'s constructor, no key equals `owner`'s own
call-time key: keys of earlier-created types are `some` of a *different* type,
and all others (including `owner` itself) are `none`. -/
theorem jsGet_innerAt_self (owner : TypeT) (row : List (TypeT × ℚ)) :
    jsGet (innerAt owner row) (some owner) = none := by
  unfold jsGet
  rw [Option.map_eq_none', List.find?_eq_none]
  intro p hp
  rw [List.mem_reverse] at hp
  unfold innerAt at hp
  rcases List.mem_map.mp hp with ⟨q, _, rfl⟩
  simp only [keyAt, decide_eq_true_eq]
  split
  · rename_i hlt
    intro hsome
    rw [Option.some.injEq] at hsome
    subst hsome
    exact absurd hlt (lt_irrefl _)
  · intro h
    exact Option.noConfusion h

/-- Every value stored in a built table is a built inner row, so the inner
`hasOwnProperty(this)` lookup always misses and each defender contributes
exactly 1. -/
theorem attackMod_eq_one (src : List (TypeT × List (TypeT × ℚ)))
    (this defender : TypeT) :
    attackMod (tableAt this src) this defender = 1 := by
  unfold attackMod
  cases hrow : jsGet (tableAt this src) (some defender) with
  | none => rfl
  | some row =>
    unfold jsGet at hrow
    rcases Option.map_eq_some'.mp hrow with ⟨p, hfind, hsnd⟩
    have hp := List.mem_reverse.mp (List.mem_of_find?_eq_some hfind)
    unfold tableAt at hp
    rcases List.mem_map.mp hp with ⟨q, _, hq⟩
    have hrow2 : row = innerAt this q.2 := by rw [← hsnd, ← hq]
    rw [hrow2]
    dsimp only
    rw [jsGet_innerAt_self]

/-- `Type.attack` always returns 1: the attacker's own key in its own
per-instance tables was written while the attacker was still `undefined`. -/
theorem typeAttackP3_eq_one (g : GenT) (this d₁ d₂ : TypeT) :
    typeAttackP3 g this d₁ d₂ = 1 := by
  unfold typeAttackP3
  by_cases h1 : genMatchB g "I" = true <;> by_cases h2 : genMatchB g "II-V" = true <;>
    simp [h1, h2, attackMod_eq_one]

/-- Same for the play_pokemon.js variant. -/
theorem typeAttackPP_eq_one (this d₁ d₂ : TypeT) :
    typeAttackPP this d₁ d₂ = 1 := by
  unfold typeAttackPP
  rw [attackMod_eq_one, attackMod_eq_one]
  norm_num

/-- The string-keyed effectiveness chart of `calcTypeMod`
(src/play_pokemon.js lines 1055-1074, duplicated in src/unnamed/part_001,
part_002 and part_003): defender-indexed rows, attacker entries inside.
String keys are ordinary defined keys, so no construction-order issue arises
here; `typeless` and `deltaFlying` are not keys of this chart. -/
def calcTypeModEff : List (TypeT × List (TypeT × ℚ)) :=
  [(bug, [(fighting, 0.5), (flying, 2), (ground, 0.5), (rock, 2), (fire, 2),
     (grass, 0.5)]),
   (dark, [(fighting, 2), (psychic, 0), (bug, 2), (ghost, 0.5), (dark, 0.5),
     (fairy, 2)]),
   (dragon, [(fire, 0.5), (water, 0.5), (electric, 0.5), (grass, 0.5), (ice, 2),
     (dragon, 2), (fairy, 2)]),
   (electric, [(flying, 0.5), (ground, 2), (electric, 0.5), (dragon, 0.5),
     (steel, 0.5)]),
   (fairy, [(fighting, 0.5), (poison, 2), (bug, 0.5), (dragon, 0), (dark, 0.5),
     (steel, 2)]),
   (fighting, [(flying, 2), (rock, 0.5), (bug, 0.5), (psychic, 2), (dark, 0.5),
     (fairy, 2)]),
   (fire, [(rock, 2), (bug, 0.5), (steel, 0.5), (fire, 0.5), (water, 2),
     (grass, 0.5), (ice, 0.5), (dragon, 0.5), (ground, 2), (fairy, 0.5)]),
   (flying, [(fighting, 0.5), (rock, 2), (bug, 0.5), (grass, 0.5), (electric, 2),
     (ice, 2), (ground, 0)]),
   (ghost, [(normal, 0), (fighting, 0), (poison, 0.5), (bug, 0.5), (ghost, 2),
     (dark, 2)]),
   (grass, [(flying, 2), (poison, 2), (ground, 0.5), (bug, 2), (fire, 2),
     (grass, 0.5), (water, 0.5), (electric, 0.5), (ice, 2)]),
   (ground, [(poison, 0.5), (rock, 2), (water, 2), (grass, 0.5), (electric, 0),
     (ice, 2)]),
   (ice, [(steel, 2), (fire, 2), (ice, 0.5), (rock, 2), (fighting, 2)]),
   (normal, [(fighting, 2), (ghost, 0)]),
   (poison, [(fighting, 0.5), (poison, 0.5), (ground, 2), (bug, 0.5),
     (grass, 0.5), (fairy, 0.5), (psychic, 2)]),
   (psychic, [(fighting, 0.5), (psychic, 0.5), (dark, 2), (ghost, 2), (bug, 2)]),
   (rock, [(normal, 0.5), (fighting, 2), (flying, 0.5), (poison, 0.5),
     (ground, 2), (steel, 2), (fire, 0.5), (water, 2), (grass, 2)]),
   (steel, [(normal, 0.5), (fighting, 2), (flying, 0.5), (rock, 0.5), (bug, 0.5),
     (steel, 0.5), (fire, 2), (grass, 0.5), (ice, 0.5), (fairy, 0.5),
     (poison, 0), (ground, 2), (psychic, 0.5), (dragon, 0.5)]),
   (water, [(fire, 0.5), (water, 0.5), (grass, 2), (electric, 2), (ice, 0.5),
     (steel, 0.5)])]

/-- `calcTypeMod(attackerType, defenderType)` (src/play_pokemon.js lines
1054-1082).  When the defender is not a key of the chart,
`effectiveness[defenderType]` is `undefined` and the immediate
`.hasOwnProperty(attackerType)` access throws a TypeError (modelled
`.error ()`); when only the attacker is absent from the defender's row, the
function returns the neutral 1. -/
def calcTypeMod (attackerType defenderType : TypeT) : Except Unit ℚ :=
  match jsGet calcTypeModEff defenderType with
  | none => .error ()
  | some row =>
    match jsGet row attackerType with
    | some v => .ok v
    | none => .ok 1

/-! ## Weather power multipliers -/

inductive WeatherT
  | noneW | harshSun | rain | sandstorm | hail | snow | fog
  | extremelyHarshSun | heavyRain | strongWinds
deriving DecidableEq

open WeatherT

/-- Creation order of the static `Weather` instances. -/
def weatherIdx : WeatherT → ℕ
  | .noneW => 0 | .harshSun => 1 | .rain => 2 | .sandstorm => 3 | .hail => 4
  | .snow => 5 | .fog => 6 | .extremelyHarshSun => 7 | .heavyRain => 8
  | .strongWinds => 9

/-- The key produced by a computed key `[Weather.w]` inside the constructor of
the `n`-th created Weather instance. -/
def weatherKeyAt (n : ℕ) (w : WeatherT) : Option WeatherT :=
  if weatherIdx w < n then some w else none

/-- `_powerModWeather` of src/unnamed/part_003 lines 242-245, as written:
outer keys are `[Type.FIRE]` / `[Type.WATER]`, inner keys are Weather
instances. -/
def powerModWeatherSrc : List (TypeT × List (WeatherT × ℚ)) :=
  [(fire, [(harshSun, 1.5), (extremelyHarshSun, 1.5), (rain, 0.5),
     (heavyRain, 0)]),
   (water, [(harshSun, 0.5), (extremelyHarshSun, 0), (rain, 1.5),
     (heavyRain, 1.5)])]

/-- `Weather.encompass(attackType)` of src/unnamed/part_003 lines 254-264.
Every `Weather` instance is constructed before any `Type` instance, so both
outer computed keys `[Type.FIRE]` and `[Type.WATER]` stringify `undefined`
(`keyAt 0 _ = none`), while the call-time lookup key is the defined string of
the attack type (`some _`). -/
def encompass (this : WeatherT) (attackType : TypeT) : ℚ :=
  match jsGet (powerModWeatherSrc.map (fun p => (keyAt 0 p.1,
      p.2.map (fun q => (weatherKeyAt (weatherIdx this) q.1, q.2)))))
      (some attackType) with
  | some row =>
    match jsGet row (some this) with
    | some v => v
    | none => 1
  | none => 1

/-- `_weather` of src/play_pokemon.js lines 273-278: outer keys are Weather
instances (all constructed before any `Type`, hence defined), inner keys are
`[Type.FIRE]` / `[Type.WATER]`, computed inside the owning type's
constructor. -/
def weatherSrc : List (WeatherT × List (TypeT × ℚ)) :=
  [(harshSun, [(fire, 1.5), (water, 0.5)]),
   (extremelyHarshSun, [(fire, 1.5), (water, 0)]),
   (rain, [(fire, 0.5), (water, 1.5)]),
   (heavyRain, [(fire, 0), (water, 1.5)])]

/-- `Type.attackThrough(weather)` of src/play_pokemon.js lines 311-321. -/
def attackThrough (this : TypeT) (w : WeatherT) : ℚ :=
  match jsGet (weatherSrc.map (fun p => (some p.1, innerAt this p.2))) (some w) with
  | some row =>
    match jsGet row (some this) with
    | some v => v
    | none => 1
  | none => 1

/-- `Weather.encompass` always returns 1: its outer keys were all written as
`"undefined"`. -/
theorem encompass_eq_one (this : WeatherT) (t : TypeT) : encompass this t = 1 := by
  unfold encompass
  have houter : jsGet (powerModWeatherSrc.map (fun p => (keyAt 0 p.1,
      p.2.map (fun q => (weatherKeyAt (weatherIdx this) q.1, q.2)))))
      (some t) = none := by
    unfold jsGet
    rw [Option.map_eq_none', List.find?_eq_none]
    intro p hp
    rw [List.mem_reverse] at hp
    rcases List.mem_map.mp hp with ⟨q, _, rfl⟩
    simp [keyAt]
  rw [houter]

/-- `Type.attackThrough` always returns 1: the owner type's own inner key in
its own `_weather` table was written as `"undefined"`. -/
theorem attackThrough_eq_one (this : TypeT) (w : WeatherT) :
    attackThrough this w = 1 := by
  unfold attackThrough
  cases hrow : jsGet (weatherSrc.map (fun p => (some p.1, innerAt this p.2)))
      (some w) with
  | none => rfl
  | some row =>
    unfold jsGet at hrow
    rcases Option.map_eq_some'.mp hrow with ⟨p, hfind, hsnd⟩
    have hp := List.mem_reverse.mp (List.mem_of_find?_eq_some hfind)
    rcases List.mem_map.mp hp with ⟨q, _, hq⟩
    have hrow2 : row = innerAt this q.2 := by rw [← hsnd, ← hq]
    rw [hrow2]
    dsimp only
    rw [jsGet_innerAt_self]

/-! ## Claims about the type chart and weather multipliers -/

/-- C3: effectiveness lookups are claimed to default to neutral 1 for any
(attacker, defender) pair not present in the chart, "without raising any
error".  `calcTypeMod` violates this: when the *defender* is not a key of the
chart (here: a typeless defender), `effectiveness[defenderType]` is
`undefined` and the `.hasOwnProperty` access on it throws a TypeError instead
of returning 1.  (The dual-type `Type.attack` operation trivially satisfies
the product rule of the claim because it always returns 1 — see
`typeAttackP3_eq_one`.) -/
theorem c3_calcTypeMod_absent_defender_throws :
    calcTypeMod .fire .typeless = .error () := rfl

/-- C4: the claimed concrete effectiveness values fail on the code.
`Type.attack` always returns the neutral 1 — each per-instance effectiveness
table keys the attacker's own entry under the string `"undefined"`, written
while the attacker was being constructed — so Fire vs (Water, Typeless) in
gen VI yields 1, not the claimed 0.5, and Electric vs (Ground, Typeless) in
gen I yields 1, not the claimed 0.  Only the Typeless/Typeless clause of the
claim holds. -/
theorem c4_attack_constant_one :
    typeAttackP3 .VI .fire .water .typeless = 1 ∧ (1 : ℚ) ≠ 1/2 ∧
    typeAttackP3 .I .electric .ground .typeless = 1 ∧ (1 : ℚ) ≠ 0 ∧
    (∀ (g : GenT) (x : TypeT), typeAttackP3 g x .typeless .typeless = 1) :=
  ⟨typeAttackP3_eq_one _ _ _ _, by norm_num, typeAttackP3_eq_one _ _ _ _,
   by norm_num, fun g x => typeAttackP3_eq_one g x .typeless .typeless⟩

/-- C5: the weather power multiplier is claimed to be 1.5 for Fire under harsh
sun, 0 for Fire under heavy rain, etc.  Both implementations return 1 for
every (weather, move type) combination: in `Weather.encompass` the outer
`[Type.FIRE]`/`[Type.WATER]` keys were written while no `Type` existed, and in
`Type.attackThrough` the inner key for the owning type was written while that
type was still `undefined`. -/
theorem c5_weather_constant_one :
    encompass .harshSun .fire = 1 ∧ attackThrough .fire .harshSun = 1 ∧
    (1 : ℚ) ≠ 3/2 ∧ encompass .heavyRain .fire = 1 ∧ (1 : ℚ) ≠ 0 :=
  ⟨encompass_eq_one _ _, attackThrough_eq_one _ _, by norm_num,
   encompass_eq_one _ _, by norm_num⟩

/-! ## StageTable

Two distinct stage validators exist in the repository:

* `Stages.#checkStage(stat, statStage, min = -6, max = 6)`
  (src/unnamed/part_003 lines 952-963): clamps to the nearest bound with a
  `console.warn`, and floors in-range values.
* `calcStatStageMod(stat, stage, gen = 3)` (src/play_pokemon.js lines
  919-1045): floors, then *throws* an `Error` when the floored stage is
  outside [-6, 6]. -/

/-- `Stages.#checkStage`: the returned `Bool` records whether a warning was
logged. -/
def checkStage (lo hi : ℤ) (s : ℚ) : ℚ × Bool :=
  if s < (lo : ℚ) then ((lo : ℚ), true)
  else if (hi : ℚ) < s then ((hi : ℚ), true)
  else (((⌊s⌋ : ℤ) : ℚ), false)

/-- Which switch branch of `calcStatStageMod` the lowercased stat name
selects: `"acc"`/`"accuracy"`, `"eva"`/`"evsn"`/`"evasion"`, or the default
branch for every other stat name. -/
inductive StatKey
  | accuracy | evasion | core
deriving DecidableEq

inductive StageErr
  | outOfRange       -- "A stat can only be lowered 6 stages or raised 6 stages."
  | impossibleStage  -- "Impossible stage reached."
deriving DecidableEq

/-- The gen I 13-entry stage table of `calcStatStageMod` (its `default` case
throws). -/
def genIStageTable (st : ℤ) : Except StageErr ℚ :=
  if st = -6 then .ok 0.25 else if st = -5 then .ok 0.28
  else if st = -4 then .ok 0.33 else if st = -3 then .ok 0.4
  else if st = -2 then .ok 0.5 else if st = -1 then .ok 0.66
  else if st = 0 then .ok 1 else if st = 1 then .ok 1.5
  else if st = 2 then .ok 2 else if st = 3 then .ok 2.5
  else if st = 4 then .ok 3 else if st = 5 then .ok 3.5
  else if st = 6 then .ok 4 else .error .impossibleStage

/-- The gens II-IV accuracy table of `calcStatStageMod` (index 10 is 2.33 in
gen II and 2.5 in gens III-IV). -/
def accStageTable (st g : ℤ) : Except StageErr ℚ :=
  if st = -6 then .ok 0.33 else if st = -5 then .ok 0.36
  else if st = -4 then .ok 0.43 else if st = -3 then .ok 0.5
  else if st = -2 then .ok 0.6 else if st = -1 then .ok 0.75
  else if st = 0 then .ok 1 else if st = 1 then .ok 1.33
  else if st = 2 then .ok 1.66 else if st = 3 then .ok 2
  else if st = 4 then .ok (if g = 2 then 2.33 else 2.5)
  else if st = 5 then .ok 2.66 else if st = 6 then .ok 3
  else .error .impossibleStage

/-- The gens II-IV evasion table of `calcStatStageMod`. -/
def evaStageTable (st g : ℤ) : Except StageErr ℚ :=
  if st = -6 then .ok 3 else if st = -5 then .ok 2.66
  else if st = -4 then .ok (if g = 2 then 2.33 else 2.5)
  else if st = -3 then .ok 2 else if st = -2 then .ok 1.66
  else if st = -1 then .ok 1.33 else if st = 0 then .ok 1
  else if st = 1 then .ok 0.75 else if st = 2 then .ok 0.6
  else if st = 3 then .ok 0.5 else if st = 4 then .ok 0.43
  else if st = 5 then .ok 0.36 else if st = 6 then .ok 0.33
  else .error .impossibleStage

/-- `calcStatStageMod(stat, stage, gen)`: floors stage and gen, throws on an
out-of-range stage, uses the gen I table when `gen === 1`, otherwise switches
on the stat name.  In the accuracy/evasion branches with a floored generation
below 2 the `break` falls off the end of the function, which then returns
`undefined` (modelled `.ok none`). -/
def calcStatStageMod (stat : StatKey) (stage gen : ℚ) :
    Except StageErr (Option ℚ) :=
  let st : ℤ := ⌊stage⌋
  let g : ℤ := ⌊gen⌋
  if st < -6 ∨ 6 < st then .error .outOfRange
  else if g = 1 then (genIStageTable st).map some
  else
    match stat with
    | .accuracy =>
      if 5 ≤ g then .ok (some ((3 + max 0 (st : ℚ)) / (3 - min 0 (st : ℚ))))
      else if 2 ≤ g ∧ g ≤ 4 then (accStageTable st g).map some
      else .ok none
    | .evasion =>
      if 5 ≤ g then .ok (some ((3 - min 0 (st : ℚ)) / (3 + max 0 (st : ℚ))))
      else if 2 ≤ g ∧ g ≤ 4 then (evaStageTable st g).map some
      else .ok none
    | .core => .ok (some ((2 + max 0 (st : ℚ)) / (2 - min 0 (st : ℚ))))

/-- C7 counterexample: the claim says an out-of-range stage is clamped to the
nearest bound with a non-fatal warning "instead of throwing an exception", but
the stage-to-multiplier conversion `calcStatStageMod` throws on stage 7. -/
theorem c7_calcStatStageMod_throws :
    calcStatStageMod .core 7 3 = .error .outOfRange := rfl

/-- C7 (amended): the `Stages` stage container (part_003 `#checkStage`) does
behave as the claim says — for integer bounds `lo ≤ hi` the stored value is
the floored stage clamped into `[lo, hi]`, a warning is emitted exactly when
the raw stage is out of range, and no exception is possible (the function is
total) — but the standalone `calcStatStageMod` helper instead floors and then
throws an `Error` on out-of-range stages (see the counterexample). -/
theorem c7_checkStage_clamps (lo hi : ℤ) (s : ℚ) (hlohi : lo ≤ hi) :
    (checkStage lo hi s).1 = max (lo : ℚ) (min (hi : ℚ) ((⌊s⌋ : ℤ) : ℚ)) ∧
    ((checkStage lo hi s).2 = true ↔ (s < (lo : ℚ) ∨ (hi : ℚ) < s)) := by
  unfold checkStage
  by_cases hlt : s < (lo : ℚ)
  · rw [if_pos hlt]
    constructor
    · have hfl : ((⌊s⌋ : ℤ) : ℚ) < (lo : ℚ) := lt_of_le_of_lt (Int.floor_le s) hlt
      rw [min_eq_right, max_eq_left]
      · exact le_of_lt hfl
      · exact le_trans (le_of_lt hfl) (by exact_mod_cast hlohi)
    · simp [hlt]
  · rw [if_neg hlt]
    by_cases hgt : (hi : ℚ) < s
    · rw [if_pos hgt]
      constructor
      · have hfl : (hi : ℚ) ≤ ((⌊s⌋ : ℤ) : ℚ) := by
          exact_mod_cast Int.le_floor.mpr (le_of_lt hgt)
        rw [min_eq_left hfl, max_eq_right]
        exact_mod_cast hlohi
      · simp [hlt, hgt]
    · rw [if_neg hgt]
      push_neg at hlt hgt
      constructor
      · have h1 : (lo : ℚ) ≤ ((⌊s⌋ : ℤ) : ℚ) := by
          exact_mod_cast Int.le_floor.mpr hlt
        have h2 : ((⌊s⌋ : ℤ) : ℚ) ≤ (hi : ℚ) := le_trans (Int.floor_le s) hgt
        rw [min_eq_right h2, max_eq_right h1]
      · simp [not_lt.mpr hlt, not_lt.mpr hgt]

/-- C7 witness: at bounds [-6, 6] and stage 7 the container clamps to 6 and
warns. -/
theorem c7_checkStage_clamps_witness :
    (-6 : ℤ) ≤ 6 ∧
    ((checkStage (-6) 6 7).1 = max ((-6 : ℤ) : ℚ) (min ((6 : ℤ) : ℚ) ((⌊(7 : ℚ)⌋ : ℤ) : ℚ)) ∧
     ((checkStage (-6) 6 7).2 = true ↔ ((7 : ℚ) < ((-6 : ℤ) : ℚ) ∨ ((6 : ℤ) : ℚ) < 7))) :=
  ⟨by norm_num, c7_checkStage_clamps (-6) 6 7 (by norm_num)⟩

/-! ## EVs (src/play_pokemon.js lines 520-637, src/unnamed/part_003 lines
667-786)

`class EVs extends StatDistribution` — both copies share the same constructor
shape:

```
constructor({ hp = 0, atk = 0, def = 0, spAtk = 0, spDef = 0, spe = 0 }) {
  const stats = { hp, atk, def, spAtk, spDef, spe };
  for (let ev in stats) { stats[ev] = this.#checkEV(ev, stats[ev]); }
  this.#checkEVSum(stats);
  super(stats);
}
```

In a derived-class constructor, `this` is in its temporal dead zone until
`super()` returns, so each `this.#...` access before `super(stats)` throws a
ReferenceError at runtime. -/

structure EVStats where
  hp : ℚ
  atk : ℚ
  df : ℚ
  spAtk : ℚ
  spDef : ℚ
  spe : ℚ
deriving DecidableEq

/-- `#checkEV`: clamp an individual EV into [0, 252], warning (the `Bool`)
when it clamps. -/
def checkEV (v : ℚ) : ℚ × Bool :=
  if v < 0 then (0, true) else if 252 < v then (252, true) else (v, false)

def evTotal (s : EVStats) : ℚ := s.hp + s.atk + s.df + s.spAtk + s.spDef + s.spe

inductive JsErr
  | referenceBeforeSuper  -- ReferenceError: `this` accessed before `super()`
  | evSumExceeded         -- "The total sum of EVs may not exceed 510."
deriving DecidableEq

/-- The statements of the `EVs` constructor body, in source order: the
`for (let ev in stats)` loop visits the six insertion-ordered keys, each
iteration calling `this.#checkEV`; then `this.#checkEVSum`; then
`super(stats)`. -/
inductive EvCtorStep
  | checkHp | checkAtk | checkDf | checkSpAtk | checkSpDef | checkSpe
  | checkSum
  | superCall
deriving DecidableEq

def evsCtorBody : List EvCtorStep :=
  [.checkHp, .checkAtk, .checkDf, .checkSpAtk, .checkSpDef, .checkSpe,
   .checkSum, .superCall]

/-- Runs the constructor statements under the derived-class rule: every
statement except `super()` itself accesses `this` (a `#`-private method call
is a member access on `this`) and therefore throws a ReferenceError while
`superCalled` is still false. -/
def runEvsCtor : List EvCtorStep → Bool → EVStats → Bool →
    Except JsErr (EVStats × Bool)
  | [], _, stats, warned => .ok (stats, warned)
  | step :: rest, superCalled, stats, warned =>
    match step with
    | .superCall => runEvsCtor rest true stats warned
    | .checkHp =>
      if superCalled = false then .error .referenceBeforeSuper
      else
        let c := checkEV stats.hp
        runEvsCtor rest superCalled { stats with hp := c.1 } (warned || c.2)
    | .checkAtk =>
      if superCalled = false then .error .referenceBeforeSuper
      else
        let c := checkEV stats.atk
        runEvsCtor rest superCalled { stats with atk := c.1 } (warned || c.2)
    | .checkDf =>
      if superCalled = false then .error .referenceBeforeSuper
      else
        let c := checkEV stats.df
        runEvsCtor rest superCalled { stats with df := c.1 } (warned || c.2)
    | .checkSpAtk =>
      if superCalled = false then .error .referenceBeforeSuper
      else
        let c := checkEV stats.spAtk
        runEvsCtor rest superCalled { stats with spAtk := c.1 } (warned || c.2)
    | .checkSpDef =>
      if superCalled = false then .error .referenceBeforeSuper
      else
        let c := checkEV stats.spDef
        runEvsCtor rest superCalled { stats with spDef := c.1 } (warned || c.2)
    | .checkSpe =>
      if superCalled = false then .error .referenceBeforeSuper
      else
        let c := checkEV stats.spe
        runEvsCtor rest superCalled { stats with spe := c.1 } (warned || c.2)
    | .checkSum =>
      if superCalled = false then .error .referenceBeforeSuper
      else if 510 < evTotal stats then .error .evSumExceeded
      else runEvsCtor rest superCalled stats warned

/-- `new EVs(distribution)` as the runtime executes it: `superCalled` starts
false. -/
def newEVs (d : EVStats) : Except JsErr (EVStats × Bool) :=
  runEvsCtor evsCtorBody false d false

/-- The computation the constructor body spells out (check each EV, check the
sum, then store), i.e. what `new EVs` produces once the statements can
actually run — the body with `super(stats)` hoisted before the `this`
accesses.  `getStats()` on the stored `StatDistribution` returns exactly the
six stored values, so the stored record is the round-trip read-back. -/
def newEVsChecked (d : EVStats) : Except JsErr (EVStats × Bool) :=
  let hp := checkEV d.hp
  let atk := checkEV d.atk
  let df := checkEV d.df
  let spAtk := checkEV d.spAtk
  let spDef := checkEV d.spDef
  let spe := checkEV d.spe
  let stats : EVStats := ⟨hp.1, atk.1, df.1, spAtk.1, spDef.1, spe.1⟩
  let warned := hp.2 || atk.2 || df.2 || spAtk.2 || spDef.2 || spe.2
  if 510 < evTotal stats then .error .evSumExceeded
  else .ok (stats, warned)

/-- C8: the claim says a valid EV distribution constructs and reads back
identically, and a total of 511 fails cleanly.  At runtime *every* `EVs`
construction throws a ReferenceError, because the constructor calls
`this.#checkEV` before `super()`.  The constructor body's own computation
(`newEVsChecked`) matches the claim: the valid distribution
(4, 252, 0, 252, 0, 0) of total 508 is returned unchanged with no warning,
and (7, 252, 0, 252, 0, 0) of total 511 is rejected before anything is
stored. -/
theorem c8_evs_ctor_always_throws :
    (∀ d : EVStats, newEVs d = .error .referenceBeforeSuper) ∧
    newEVsChecked ⟨4, 252, 0, 252, 0, 0⟩ = .ok (⟨4, 252, 0, 252, 0, 0⟩, false) ∧
    newEVsChecked ⟨7, 252, 0, 252, 0, 0⟩ = .error .evSumExceeded :=
  ⟨fun d => rfl, by norm_num [newEVsChecked, checkEV, evTotal],
   by norm_num [newEVsChecked, checkEV, evTotal]⟩

/-! ## Stages: the stage-less HP stat (src/unnamed/part_003 lines 1099-1111) -/

/-- A `Stages` snapshot: the five core stat stages stored in the underlying
`StatDistribution` plus the three `#`-private extras. -/
structure StagesState where
  atk : ℤ
  df : ℤ
  spAtk : ℤ
  spDef : ℤ
  spe : ℤ
  critStage : ℤ
  evasionStage : ℤ
  accuracyStage : ℤ
deriving DecidableEq

/-- `Stages.getHpVal()`: `return null;` — the documented "not applicable"
signal. -/
def stagesGetHpVal (s : StagesState) : Option ℚ := none

/-- `Stages.setHpVal(newVal)`: logs a warning (the `Bool`) and returns `this`,
touching no field. -/
def stagesSetHpVal (s : StagesState) (newVal : ℚ) : StagesState × Bool :=
  (s, true)

/-- C10: on every `Stages` object, `getHpVal` returns the null "not
applicable" signal, and `setHpVal` only warns, changes no stage field, and
returns the object itself. -/
theorem c10_hp_stage_frame :
    (∀ s : StagesState, stagesGetHpVal s = none) ∧
    (∀ (s : StagesState) (v : ℚ),
      (stagesSetHpVal s v).1 = s ∧ (stagesSetHpVal s v).2 = true) :=
  ⟨fun _ => rfl, fun _ _ => ⟨rfl, rfl⟩⟩
